import Mathlib

/-!
Verification of the filter-and-aggregate pipeline of the real-estate
cluster-mapping dashboard (Next.js/TypeScript sources under `src/app`).

The embedding models JavaScript numbers as rationals plus an explicit NaN,
since the behaviour under scrutiny (filter predicates, chart means, scatter
point dropping) hinges on `parseFloat`/`Number` producing NaN on malformed
input and on comparisons with NaN being false.
-/

/-- A JavaScript value as it occurs in the data rows of this app: a (finite)
number, the NaN produced by failed numeric conversions, or a string.
Numbers are modelled as rationals. -/
inductive JSVal where
  | num (q : ℚ)
  | nan
  | str (s : String)
deriving DecidableEq

/-- JS truthiness for the values that occur here: `0`, `NaN` and `""` are
falsy, everything else truthy. -/
def jsTruthy : JSVal → Bool
  | JSVal.num q => q != 0
  | JSVal.nan => false
  | JSVal.str s => s != ""

/-- Model of the JS `||` operator: `a || b` is `a` when `a` is truthy. -/
def jsOr (a b : JSVal) : JSVal :=
  if jsTruthy a then a else b

/-- Numeric value of a decimal digit character. -/
def charDigitVal (c : Char) : ℕ := c.toNat - 48

/-- Value of a string of decimal digit characters, most significant first. -/
def digitsVal (cs : List Char) : ℕ :=
  cs.foldl (fun a c => a * 10 + charDigitVal c) 0

/-- Value of the fractional digits that follow the decimal point. -/
def fracVal (cs : List Char) : ℚ :=
  (digitsVal cs : ℚ) / (10 : ℚ) ^ cs.length

/-- Strip an optional leading sign, returning (negative?, rest). -/
def stripSign : List Char → Bool × List Char
  | '-' :: t => (true, t)
  | '+' :: t => (false, t)
  | cs => (false, cs)

/-- Model of `Number.parseFloat`: parse the longest prefix of the form
`[+-]? digits [. digits]`; NaN when no digit is found. (Exponents,
`Infinity` and leading whitespace, which the app's inputs never contain,
are not modelled.) -/
def jsParseFloat (s : String) : JSVal :=
  let neg := (stripSign s.data).1
  let cs := (stripSign s.data).2
  let intPart := cs.takeWhile (·.isDigit)
  let rest := cs.dropWhile (·.isDigit)
  let fracPart :=
    match rest with
    | '.' :: t => t.takeWhile (·.isDigit)
    | _ => []
  if intPart.isEmpty && fracPart.isEmpty then JSVal.nan
  else
    let v : ℚ :=
      if fracPart.isEmpty then (digitsVal intPart : ℚ)
      else (digitsVal intPart : ℚ) + fracVal fracPart
    JSVal.num (if neg then -v else v)

/-- Model of `Number.parseInt` (base 10): parse the longest prefix of the
form `[+-]? digits`; NaN when no digit is found. -/
def jsParseInt (s : String) : JSVal :=
  let neg := (stripSign s.data).1
  let ds := (stripSign s.data).2.takeWhile (·.isDigit)
  if ds.isEmpty then JSVal.nan
  else
    let v : ℚ := (digitsVal ds : ℚ)
    JSVal.num (if neg then -v else v)

/-- Model of the JS `Number(string)` conversion: the whole string must be a
numeric literal `[+-]? digits [. digits]`; the empty string converts to 0;
anything else to NaN. -/
def jsNumberOfString (s : String) : JSVal :=
  if s.data.isEmpty then JSVal.num 0
  else
    let neg := (stripSign s.data).1
    let cs := (stripSign s.data).2
    let intPart := cs.takeWhile (·.isDigit)
    let rest := cs.dropWhile (·.isDigit)
    let fracPart :=
      match rest with
      | '.' :: t => t.takeWhile (fun c : Char => c.isDigit)
      | _ => ([] : List Char)
    let rest2 :=
      match rest with
      | '.' :: t => t.dropWhile (fun c : Char => c.isDigit)
      | r => r
    if intPart.isEmpty && fracPart.isEmpty then JSVal.nan
    else if !rest2.isEmpty then JSVal.nan
    else
      let v : ℚ :=
        if fracPart.isEmpty then (digitsVal intPart : ℚ)
        else (digitsVal intPart : ℚ) + fracVal fracPart
      JSVal.num (if neg then -v else v)

/-- Model of `Number(v)` on a row value: numbers pass through, strings are
converted by `jsNumberOfString`. -/
def jsNumber : JSVal → JSVal
  | JSVal.num q => JSVal.num q
  | JSVal.nan => JSVal.nan
  | JSVal.str s => jsNumberOfString s

/-- Model of `isNaN(v)` as the app uses it (always applied to the result of
a `Number(...)` conversion, so the string-coercion of global `isNaN` agrees
with this direct test). -/
def jsIsNaN : JSVal → Bool
  | JSVal.nan => true
  | _ => false

/-- Extract the rational of a numeric `JSVal`; 0 on the non-numeric
constructors (only applied where the value is proved numeric). -/
def JSVal.toQ : JSVal → ℚ
  | JSVal.num q => q
  | _ => 0

/-!
## Map page (`src/app/page.tsx`)
-/

/-- One raw CSV row as handed to the `transform` callback of `Papa.parse`
on the map page: every column is a string. Columns follow the app's
`PropertyData` interface. -/
structure RawRow where
  name : String
  url : String
  bedrooms : String
  bathrooms : String
  floors : String
  land_area : String
  building_area : String
  longitude : String
  latitude : String
  price : String
  cluster : String
deriving DecidableEq

/-- The `PropertyData` interface of `src/app/page.tsx`. Numeric fields are
rationals; the ingestion below only ever stores non-NaN numbers in them. -/
structure PropertyData where
  name : String
  url : String
  bedrooms : ℚ
  bathrooms : ℚ
  floors : ℚ
  land_area : ℚ
  building_area : ℚ
  longitude : ℚ
  latitude : ℚ
  price : ℚ
  cluster : ℚ
deriving DecidableEq

/-- The numeric-column transform of `parseCSV` in `src/app/page.tsx`:
`Number.parseFloat(value) || 0`. -/
def mapPageCoerce (value : String) : JSVal :=
  jsOr (jsParseFloat value) (JSVal.num 0)

/-- The per-row effect of `parseCSV` (map page): numeric columns go through
`mapPageCoerce`, text columns pass through. `JSVal.toQ` is safe here because
`mapPageCoerce` never returns NaN (proved below). -/
def parseCSVRow (r : RawRow) : PropertyData where
  name := r.name
  url := r.url
  bedrooms := (mapPageCoerce r.bedrooms).toQ
  bathrooms := (mapPageCoerce r.bathrooms).toQ
  floors := (mapPageCoerce r.floors).toQ
  land_area := (mapPageCoerce r.land_area).toQ
  building_area := (mapPageCoerce r.building_area).toQ
  longitude := (mapPageCoerce r.longitude).toQ
  latitude := (mapPageCoerce r.latitude).toQ
  price := (mapPageCoerce r.price).toQ
  cluster := (mapPageCoerce r.cluster).toQ

/-- The list-level `parseCSV` (map page): every row is transformed, none rejected. -/
def parseCSV (rows : List RawRow) : List PropertyData :=
  rows.map parseCSVRow

/-- The filter state of `RealEstateMap`: four strings, exactly as the React
state holds them. -/
structure Filters where
  cluster : String
  minPrice : String
  maxPrice : String
  minBedrooms : String
deriving DecidableEq

/-- The initial / reset filter state (`useState` initialiser and
`resetFilters`). -/
def defaultFilters : Filters :=
  ⟨"all", "", "", ""⟩

/-- JS `a >= v` where `v` may be NaN: false on NaN. -/
def jsCmpGe (a : ℚ) (v : JSVal) : Bool :=
  match v with
  | JSVal.num q => decide (q ≤ a)
  | _ => false

/-- JS `a <= v` where `v` may be NaN: false on NaN. -/
def jsCmpLe (a : ℚ) (v : JSVal) : Bool :=
  match v with
  | JSVal.num q => decide (a ≤ q)
  | _ => false

/-- JS `a === v` where `v` may be NaN: false on NaN. -/
def jsCmpEq (a : ℚ) (v : JSVal) : Bool :=
  match v with
  | JSVal.num q => decide (a = q)
  | _ => false

/-- Function `applyFilters` of `src/app/page.tsx` (lines 118-140): four sequential
guarded `Array.filter` passes. A guard is JS truthiness of the criterion
string (`!== "all"` for the cluster, non-empty for the numeric bounds). -/
def applyFilters (flt : Filters) (properties : List PropertyData) : List PropertyData :=
  let filtered := properties
  let filtered :=
    if flt.cluster != "all" then
      filtered.filter (fun p => jsCmpEq p.cluster (jsParseInt flt.cluster))
    else filtered
  let filtered :=
    if flt.minPrice != "" then
      filtered.filter (fun p => jsCmpGe p.price (jsParseFloat flt.minPrice))
    else filtered
  let filtered :=
    if flt.maxPrice != "" then
      filtered.filter (fun p => jsCmpLe p.price (jsParseFloat flt.maxPrice))
    else filtered
  let filtered :=
    if flt.minBedrooms != "" then
      filtered.filter (fun p => jsCmpGe p.bedrooms (jsParseInt flt.minBedrooms))
    else filtered
  filtered

/-- The record-level predicate equivalent to the four sequential passes of
`applyFilters` (left-associated in the order the code applies them). -/
def passes (flt : Filters) (p : PropertyData) : Bool :=
  ((((!(flt.cluster != "all")) || jsCmpEq p.cluster (jsParseInt flt.cluster)) &&
    ((!(flt.minPrice != "")) || jsCmpGe p.price (jsParseFloat flt.minPrice))) &&
   ((!(flt.maxPrice != "")) || jsCmpLe p.price (jsParseFloat flt.maxPrice))) &&
  ((!(flt.minBedrooms != "")) || jsCmpGe p.bedrooms (jsParseInt flt.minBedrooms))

/-- Modelled from the spec's words (§4.2): a record satisfies every active
(non-default) criterion — cluster equality when a specific cluster is
selected, inclusive price bounds when set, inclusive bedroom lower bound
when set. -/
def satisfiesCriteria (flt : Filters) (p : PropertyData) : Bool :=
  (flt.cluster == "all" || jsCmpEq p.cluster (jsParseInt flt.cluster)) &&
  (flt.minPrice == "" || jsCmpGe p.price (jsParseFloat flt.minPrice)) &&
  (flt.maxPrice == "" || jsCmpLe p.price (jsParseFloat flt.maxPrice)) &&
  (flt.minBedrooms == "" || jsCmpGe p.bedrooms (jsParseInt flt.minBedrooms))

/-- The `SimpleMapComponent` adds one marker per property in the list it is
given, at `[property.latitude, property.longitude]` — no record of the
list is excluded. -/
def mapMarkers (properties : List PropertyData) : List (ℚ × ℚ) :=
  properties.map (fun p => (p.latitude, p.longitude))

/-!
## Cluster-analysis page (`src/app/cluster-analysis/page.tsx`)

This page re-parses the CSV with Papa's `dynamicTyping`, so a row field is
either a number (when the whole cell is a numeric literal) or the original
string.
-/

/-- A dynamically-typed data row as produced by `Papa.parse` with
`dynamicTyping: true` on the cluster-analysis page. -/
structure DynRow where
  name : JSVal
  url : JSVal
  bedrooms : JSVal
  bathrooms : JSVal
  floors : JSVal
  land_area : JSVal
  building_area : JSVal
  longitude : JSVal
  latitude : JSVal
  price : JSVal
  cluster : JSVal
deriving DecidableEq

/-- Papa's `dynamicTyping` on one cell: a cell that is entirely a numeric
literal becomes a number, every other cell (the empty cell included) stays
a string. -/
def papaDynamicType (s : String) : JSVal :=
  if s.data.isEmpty then JSVal.str s
  else
    match jsNumberOfString s with
    | JSVal.num q => JSVal.num q
    | _ => JSVal.str s

/-- JS strict equality `v === c` between a row value and a number literal
`c` (as in `d.cluster === c`): true only when `v` is the number `c`. -/
def jsStrictEqNum (v : JSVal) (c : ℚ) : Bool :=
  match v with
  | JSVal.num q => decide (q = c)
  | _ => false

/-- The hard-coded cluster-id list of the page: `const clusters = [0, 1, 2]`. -/
def clusters : List ℚ := [0, 1, 2]

/-- Count of one cluster: `data.filter((d) => d.cluster === c).length`. -/
def clusterCountAt (data : List DynRow) (c : ℚ) : ℕ :=
  (data.filter (fun d => jsStrictEqNum d.cluster c)).length

/-- Value `clusterCounts` of the page: the counts for the hard-coded id list. -/
def clusterCounts (data : List DynRow) : List ℕ :=
  clusters.map (fun c => clusterCountAt data c)

/-- Modelled from the spec's words (§4.3): the number of records whose
`cluster` field equals the given id. -/
def specClusterCount (data : List DynRow) (c : ℚ) : ℕ :=
  (data.filter (fun d => d.cluster == JSVal.num c)).length

/-- The numeric array a bar chart builds for one cluster and one field:
`data.filter((d) => d.cluster === c).map((d) => Number(d.f)).filter((v) => !isNaN(v))`,
with the surviving (necessarily numeric) values read off as rationals. -/
def numericArr (data : List DynRow) (c : ℚ) (f : DynRow → JSVal) : List ℚ :=
  ((((data.filter (fun d => jsStrictEqNum d.cluster c)).map
      (fun d => jsNumber (f d))).filter
      (fun v => !(jsIsNaN v))).map JSVal.toQ)

/-- One bar value: `arr.length ? arr.reduce((a, b) => a + b, 0) / arr.length : 0`. -/
def meanOfField (data : List DynRow) (c : ℚ) (f : DynRow → JSVal) : ℚ :=
  let arr := numericArr data c f
  if arr.length = 0 then 0 else arr.foldl (· + ·) 0 / (arr.length : ℚ)

/-- The `data` array of `priceBar`. -/
def priceBarData (data : List DynRow) : List ℚ :=
  clusters.map (fun c => meanOfField data c DynRow.price)

/-- The `data` array of `landBar`. -/
def landBarData (data : List DynRow) : List ℚ :=
  clusters.map (fun c => meanOfField data c DynRow.land_area)

/-- The `data` array of `buildingBar`. -/
def buildingBarData (data : List DynRow) : List ℚ :=
  clusters.map (fun c => meanOfField data c DynRow.building_area)

/-- The `data` array of `bedroomBar`. -/
def bedroomBarData (data : List DynRow) : List ℚ :=
  clusters.map (fun c => meanOfField data c DynRow.bedrooms)

/-- The `data` array of `bathroomBar`. -/
def bathroomBarData (data : List DynRow) : List ℚ :=
  clusters.map (fun c => meanOfField data c DynRow.bathrooms)

/-- The sum, over a cluster-id list, of the per-cluster counts. -/
def sumCounts (ids : List ℚ) (data : List DynRow) : ℕ :=
  (ids.map (fun c => clusterCountAt data c)).sum

/-- One point of the scatter series: `{x: Number(d.land_area),
y: Number(d.price), cluster: d.cluster}`. -/
structure ScatterPoint where
  x : JSVal
  y : JSVal
  cluster : JSVal
deriving DecidableEq

/-- The point list of `scatterPriceLand`: one candidate point per record,
then the points whose `x` or `y` is NaN are dropped. -/
def scatterPoints (data : List DynRow) : List ScatterPoint :=
  (data.map (fun d => ScatterPoint.mk (jsNumber d.land_area) (jsNumber d.price) d.cluster)).filter
    (fun d => !(jsIsNaN d.x) && !(jsIsNaN d.y))

/-- Colour lookup `CLUSTER_COLORS[Number(v)] || "#6b7280"`: the fixed
three-colour map of the page with its fallback. -/
def clusterColorLookup (v : JSVal) : String :=
  match jsNumber v with
  | JSVal.num q =>
      if q = 0 then "#ef4444"
      else if q = 1 then "#3b82f6"
      else if q = 2 then "#10b981"
      else "#6b7280"
  | _ => "#6b7280"

/-- The `backgroundColor` array of `scatterPriceLand`: one colour per input
record, built from the full, unfiltered `data`. -/
def scatterColors (data : List DynRow) : List String :=
  data.map (fun d => clusterColorLookup d.cluster)

/-- The colour at index `i` corresponds to the cluster of the `i`-th
surviving scatter point, for every index of the point list. -/
def colorsAligned (data : List DynRow) : Bool :=
  ((scatterPoints data).zip (scatterColors data)).all
    (fun pc => pc.2 == clusterColorLookup pc.1.cluster)

/-!
## General lemmas
-/

theorem ite_filter_eq {α : Type} (c : Bool) (p : α → Bool) (l : List α) :
    (if c then l.filter p else l) = l.filter (fun x => !c || p x) := by
  cases c <;> simp

theorem length_filter_mono {α : Type} {p q : α → Bool} {l : List α}
    (h : ∀ a ∈ l, p a = true → q a = true) :
    (l.filter p).length ≤ (l.filter q).length := by
  induction l with
  | nil => simp
  | cons x xs ih =>
      have ih' := ih (fun a ha hp => h a (List.mem_cons_of_mem _ ha) hp)
      by_cases hp : p x = true
      · have hq := h x (List.mem_cons_self x xs) hp
        simpa [List.filter_cons, hp, hq] using Nat.succ_le_succ ih'
      · by_cases hq : q x = true
        · simpa [List.filter_cons, hp, hq] using Nat.le_succ_of_le ih'
        · simpa [List.filter_cons, hp, hq] using ih'

theorem foldl_add_acc (l : List ℚ) (a : ℚ) : l.foldl (· + ·) a = a + l.sum := by
  induction l generalizing a with
  | nil => simp
  | cons x xs ih => simp [ih, add_assoc]

theorem sum_map_add_nat {α : Type} (l : List α) (f g : α → ℕ) :
    (l.map (fun x => f x + g x)).sum = (l.map f).sum + (l.map g).sum := by
  induction l with
  | nil => simp
  | cons x xs ih => simp [ih]; omega

theorem jsParseFloat_num_or_nan (s : String) :
    jsParseFloat s = JSVal.nan ∨ ∃ q, jsParseFloat s = JSVal.num q := by
  unfold jsParseFloat
  dsimp only
  split
  · exact Or.inl rfl
  · exact Or.inr ⟨_, rfl⟩

theorem mapPageCoerce_eq_num (s : String) : ∃ q, mapPageCoerce s = JSVal.num q := by
  unfold mapPageCoerce jsOr
  rcases jsParseFloat_num_or_nan s with h | ⟨q, h⟩
  · rw [h]
    exact ⟨0, rfl⟩
  · rw [h]
    by_cases hq : jsTruthy (JSVal.num q) = true
    · rw [if_pos hq]
      exact ⟨q, rfl⟩
    · rw [if_neg hq]
      exact ⟨0, rfl⟩

theorem mapPageCoerce_of_nan {s : String} (h : jsParseFloat s = JSVal.nan) :
    mapPageCoerce s = JSVal.num 0 := by
  unfold mapPageCoerce jsOr
  rw [h]
  rfl

theorem applyFilters_eq_filter (flt : Filters) (R : List PropertyData) :
    applyFilters flt R = R.filter (passes flt) := by
  unfold applyFilters
  dsimp only
  rw [ite_filter_eq, ite_filter_eq, ite_filter_eq, ite_filter_eq,
      List.filter_filter, List.filter_filter, List.filter_filter]
  apply List.filter_congr
  intro x hx
  unfold passes
  generalize (!(flt.cluster != "all") || jsCmpEq x.cluster (jsParseInt flt.cluster)) = g1
  generalize (!(flt.minPrice != "") || jsCmpGe x.price (jsParseFloat flt.minPrice)) = g2
  generalize (!(flt.maxPrice != "") || jsCmpLe x.price (jsParseFloat flt.maxPrice)) = g3
  generalize (!(flt.minBedrooms != "") || jsCmpGe x.bedrooms (jsParseInt flt.minBedrooms)) = g4
  revert g1 g2 g3 g4
  decide

theorem satisfiesCriteria_eq_passes (flt : Filters) (p : PropertyData) :
    satisfiesCriteria flt p = passes flt p := by
  unfold satisfiesCriteria passes
  simp only [bne, Bool.not_not]

/-!
## Concrete fixtures
-/

/-- A concrete property record (cluster 2, price 1500, 3 bedrooms). -/
def propA : PropertyData := ⟨"A", "", 3, 2, 2, 120, 100, 107, -6, 1500, 2⟩

/-- A concrete property record (cluster 2, price 800, 2 bedrooms). -/
def propB : PropertyData := ⟨"B", "", 2, 1, 1, 90, 70, 106, -7, 800, 2⟩

/-- A concrete property record (cluster 1, price 2000, 4 bedrooms). -/
def propC : PropertyData := ⟨"C", "", 4, 2, 2, 150, 120, 108, -6, 2000, 1⟩

/-- A concrete record list for filter witnesses. -/
def c1R : List PropertyData := [propA, propB, propC]

/-- A fully active, parseable criteria set: cluster 2, 1000 ≤ price, 3+ bedrooms. -/
def c1Flt : Filters := ⟨"2", "1000", "", "3"⟩

/-- The filter state the UI produces when the user picks the "Any" option of
the minimum-bedrooms select. -/
def anyFilters : Filters := ⟨"all", "", "", "any"⟩

/-!
## Claims about the filter engine
-/

/-- C1: for every record sequence and every criteria whose active criteria
are parseable, `applyFilters` returns exactly the records satisfying every
active criterion (cluster equality, inclusive price bounds, inclusive
bedroom lower bound), in the input's relative order. -/
theorem applyFilters_exact_conjunction (R : List PropertyData) (flt : Filters)
    (_hc : flt.cluster = "all" ∨ ∃ q, jsParseInt flt.cluster = JSVal.num q)
    (_hmp : flt.minPrice = "" ∨ ∃ q, jsParseFloat flt.minPrice = JSVal.num q)
    (_hxp : flt.maxPrice = "" ∨ ∃ q, jsParseFloat flt.maxPrice = JSVal.num q)
    (_hmb : flt.minBedrooms = "" ∨ ∃ q, jsParseInt flt.minBedrooms = JSVal.num q) :
    applyFilters flt R = R.filter (satisfiesCriteria flt) ∧
    List.Sublist (R.filter (satisfiesCriteria flt)) R := by
  constructor
  · rw [applyFilters_eq_filter]
    exact (List.filter_congr (fun x _ => satisfiesCriteria_eq_passes flt x)).symm
  · exact List.filter_sublist R

/-- C1 witness: the theorem applied to a concrete list and concrete
criteria, with every hypothesis discharged. -/
theorem applyFilters_exact_conjunction_witness :
    ((∃ q, jsParseInt c1Flt.cluster = JSVal.num q) ∧
     (∃ q, jsParseFloat c1Flt.minPrice = JSVal.num q) ∧
     c1Flt.maxPrice = "" ∧
     (∃ q, jsParseInt c1Flt.minBedrooms = JSVal.num q)) ∧
    applyFilters c1Flt c1R = c1R.filter (satisfiesCriteria c1Flt) ∧
    List.Sublist (c1R.filter (satisfiesCriteria c1Flt)) c1R :=
  ⟨⟨⟨2, by decide⟩, ⟨1000, by decide⟩, rfl, ⟨3, by decide⟩⟩,
    applyFilters_exact_conjunction c1R c1Flt
      (Or.inr ⟨2, by decide⟩) (Or.inr ⟨1000, by decide⟩)
      (Or.inl rfl) (Or.inr ⟨3, by decide⟩)⟩

/-- C4: with the default criteria (cluster `"all"`, the three numeric
criteria empty) the filter is the identity on any record sequence. -/
theorem applyFilters_default_identity (R : List PropertyData) :
    applyFilters defaultFilters R = R := rfl

/-- C2: contrary to the spec, a non-numeric numeric criterion is NOT
treated as inactive: with `minBedrooms = "any"` (exactly what the UI's
"Any" option stores) `p.bedrooms >= NaN` is false for every record, so the
filter drops everything instead of ignoring the criterion. -/
theorem minBedrooms_any_drops_all :
    applyFilters anyFilters [propA] = [] ∧
    applyFilters defaultFilters [propA] = [propA] := by
  constructor <;> rfl

theorem passes_decomp {flt : Filters} {x : PropertyData} (h : passes flt x = true) :
    ((!(flt.cluster != "all")) || jsCmpEq x.cluster (jsParseInt flt.cluster)) = true ∧
    ((!(flt.minPrice != "")) || jsCmpGe x.price (jsParseFloat flt.minPrice)) = true ∧
    ((!(flt.maxPrice != "")) || jsCmpLe x.price (jsParseFloat flt.maxPrice)) = true ∧
    ((!(flt.minBedrooms != "")) || jsCmpGe x.bedrooms (jsParseInt flt.minBedrooms)) = true := by
  unfold passes at h
  simp only [Bool.and_eq_true] at h
  exact ⟨h.1.1.1, h.1.1.2, h.1.2, h.2⟩

theorem passes_build {flt : Filters} {x : PropertyData}
    (h1 : ((!(flt.cluster != "all")) || jsCmpEq x.cluster (jsParseInt flt.cluster)) = true)
    (h2 : ((!(flt.minPrice != "")) || jsCmpGe x.price (jsParseFloat flt.minPrice)) = true)
    (h3 : ((!(flt.maxPrice != "")) || jsCmpLe x.price (jsParseFloat flt.maxPrice)) = true)
    (h4 : ((!(flt.minBedrooms != "")) || jsCmpGe x.bedrooms (jsParseInt flt.minBedrooms)) = true) :
    passes flt x = true := by
  unfold passes
  simp only [Bool.and_eq_true]
  exact ⟨⟨⟨h1, h2⟩, h3⟩, h4⟩

theorem jsCmpGe_of_le {p q : ℚ} {v : JSVal} (h : v = JSVal.num q) (hle : q ≤ p) :
    jsCmpGe p v = true := by
  rw [h]
  exact decide_eq_true hle

theorem le_of_jsCmpGe {p q : ℚ} {v : JSVal} (h : v = JSVal.num q)
    (ht : jsCmpGe p v = true) : q ≤ p := by
  rw [h] at ht
  exact of_decide_eq_true ht

theorem jsCmpLe_of_le {p q : ℚ} {v : JSVal} (h : v = JSVal.num q) (hle : p ≤ q) :
    jsCmpLe p v = true := by
  rw [h]
  exact decide_eq_true hle

theorem le_of_jsCmpLe {p q : ℚ} {v : JSVal} (h : v = JSVal.num q)
    (ht : jsCmpLe p v = true) : p ≤ q := by
  rw [h] at ht
  exact of_decide_eq_true ht

theorem bne_true_of_ne {a b : String} (h : a ≠ b) : (a != b) = true := by
  simpa [bne_iff_ne] using h

/-- C5: tightening one active numeric bound (raising `minPrice`, lowering
`maxPrice`, or raising `minBedrooms`, the criterion strings being parseable
and non-empty) never increases the size of the filtered result. -/
theorem applyFilters_tightening_monotone (R : List PropertyData) (flt : Filters)
    (a b : String) (qa qb : ℚ)
    (ha : jsParseFloat a = JSVal.num qa) (hb : jsParseFloat b = JSVal.num qb)
    (hA : a ≠ "") (hB : b ≠ "")
    (c d : String) (nc nd : ℚ)
    (hc : jsParseInt c = JSVal.num nc) (hd : jsParseInt d = JSVal.num nd)
    (hD : d ≠ "") (hC : c ≠ "") :
    (qa ≤ qb →
      (applyFilters (Filters.mk flt.cluster b flt.maxPrice flt.minBedrooms) R).length ≤
      (applyFilters (Filters.mk flt.cluster a flt.maxPrice flt.minBedrooms) R).length) ∧
    (qb ≤ qa →
      (applyFilters (Filters.mk flt.cluster flt.minPrice b flt.minBedrooms) R).length ≤
      (applyFilters (Filters.mk flt.cluster flt.minPrice a flt.minBedrooms) R).length) ∧
    (nc ≤ nd →
      (applyFilters (Filters.mk flt.cluster flt.minPrice flt.maxPrice d) R).length ≤
      (applyFilters (Filters.mk flt.cluster flt.minPrice flt.maxPrice c) R).length) := by
  refine ⟨fun hab => ?_, fun hba => ?_, fun hcd => ?_⟩
  · rw [applyFilters_eq_filter, applyFilters_eq_filter]
    apply length_filter_mono
    intro x hx hp
    obtain ⟨p1, p2, p3, p4⟩ := passes_decomp hp
    dsimp only at p1 p2 p3 p4 ⊢
    refine @passes_build (Filters.mk flt.cluster a flt.maxPrice flt.minBedrooms) x p1 ?_ p3 p4
    dsimp only
    rw [bne_true_of_ne hB] at p2
    rw [bne_true_of_ne hA]
    simp only [Bool.not_true, Bool.false_or] at p2 ⊢
    exact jsCmpGe_of_le ha (le_trans hab (le_of_jsCmpGe hb p2))
  · rw [applyFilters_eq_filter, applyFilters_eq_filter]
    apply length_filter_mono
    intro x hx hp
    obtain ⟨p1, p2, p3, p4⟩ := passes_decomp hp
    dsimp only at p1 p2 p3 p4 ⊢
    refine @passes_build (Filters.mk flt.cluster flt.minPrice a flt.minBedrooms) x p1 p2 ?_ p4
    dsimp only
    rw [bne_true_of_ne hB] at p3
    rw [bne_true_of_ne hA]
    simp only [Bool.not_true, Bool.false_or] at p3 ⊢
    exact jsCmpLe_of_le ha (le_trans (le_of_jsCmpLe hb p3) hba)
  · rw [applyFilters_eq_filter, applyFilters_eq_filter]
    apply length_filter_mono
    intro x hx hp
    obtain ⟨p1, p2, p3, p4⟩ := passes_decomp hp
    dsimp only at p1 p2 p3 p4 ⊢
    refine @passes_build (Filters.mk flt.cluster flt.minPrice flt.maxPrice c) x p1 p2 p3 ?_
    dsimp only
    rw [bne_true_of_ne hD] at p4
    rw [bne_true_of_ne hC]
    simp only [Bool.not_true, Bool.false_or] at p4 ⊢
    exact jsCmpGe_of_le hc (le_trans hcd (le_of_jsCmpGe hd p4))

/-- C5 witness: the theorem applied to concrete bounds (`minPrice` raised
from 100 to 200, `maxPrice` lowered from 2000 to 900, `minBedrooms` raised
from 2 to 4) on a concrete record list. -/
theorem applyFilters_tightening_monotone_witness :
    (jsParseFloat "100" = JSVal.num 100 ∧ jsParseFloat "200" = JSVal.num 200 ∧
     jsParseInt "2" = JSVal.num 2 ∧ jsParseInt "4" = JSVal.num 4 ∧
     (100 : ℚ) ≤ 200 ∧ (2 : ℚ) ≤ 4) ∧
    (applyFilters (Filters.mk "all" "200" "" "") c1R).length ≤
      (applyFilters (Filters.mk "all" "100" "" "") c1R).length ∧
    (applyFilters (Filters.mk "all" "" "" "4") c1R).length ≤
      (applyFilters (Filters.mk "all" "" "" "2") c1R).length :=
  ⟨⟨by decide, by decide, by decide, by decide, by decide, by decide⟩,
    ((applyFilters_tightening_monotone c1R (Filters.mk "all" "" "" "")
        "100" "200" 100 200 (by decide) (by decide) (by decide) (by decide)
        "2" "4" 2 4 (by decide) (by decide) (by decide) (by decide)).1 (by decide)),
    ((applyFilters_tightening_monotone c1R (Filters.mk "all" "" "" "")
        "100" "200" 100 200 (by decide) (by decide) (by decide) (by decide)
        "2" "4" 2 4 (by decide) (by decide) (by decide) (by decide)).2.2 (by decide))⟩

/-!
## Claims about the aggregation engine
-/

/-- Builds a dynamic row with the given price and cluster values; the
remaining fields are fixed well-formed values. -/
def mkRow (price cl : JSVal) : DynRow :=
  ⟨JSVal.str "r", JSVal.str "", JSVal.num 3, JSVal.num 2, JSVal.num 1,
    JSVal.num 100, JSVal.num 80, JSVal.num 107, JSVal.num (-6), price, cl⟩

/-- The spec's mean fixture: cluster 1 with prices 100, 200, 300. -/
def fixtureRows : List DynRow :=
  [mkRow (JSVal.num 100) (JSVal.num 1),
   mkRow (JSVal.num 200) (JSVal.num 1),
   mkRow (JSVal.num 300) (JSVal.num 1)]

/-- A single row whose cluster (5) matches none of the page's cluster ids. -/
def lonelyRow : DynRow := mkRow (JSVal.num 500) (JSVal.num 5)

/-- C3: for every cluster id of the page's id list that matches no record,
the aggregate has count 0 and every mean field (price, land area, building
area, bedrooms, bathrooms) equal to 0 — the means are total rational-valued
functions, so no NaN/undefined can occur. -/
theorem empty_group_aggregates_zero (data : List DynRow) (c : ℚ)
    (_hmem : c ∈ clusters)
    (h : ∀ d ∈ data, jsStrictEqNum d.cluster c = false) :
    clusterCountAt data c = 0 ∧
    meanOfField data c DynRow.price = 0 ∧
    meanOfField data c DynRow.land_area = 0 ∧
    meanOfField data c DynRow.building_area = 0 ∧
    meanOfField data c DynRow.bedrooms = 0 ∧
    meanOfField data c DynRow.bathrooms = 0 := by
  have hf : data.filter (fun d => jsStrictEqNum d.cluster c) = [] :=
    List.filter_eq_nil_iff.mpr (fun a ha => by simp [h a ha])
  have hnum : ∀ f : DynRow → JSVal, numericArr data c f = [] := by
    intro f
    unfold numericArr
    rw [hf]
    rfl
  have hmean : ∀ f : DynRow → JSVal, meanOfField data c f = 0 := by
    intro f
    simp [meanOfField, hnum f]
  refine ⟨?_, hmean _, hmean _, hmean _, hmean _, hmean _⟩
  unfold clusterCountAt
  rw [hf]
  rfl

/-- C3 witness: cluster id 0 on a list whose only record is in cluster 5. -/
theorem empty_group_aggregates_zero_witness :
    ((0 : ℚ) ∈ clusters ∧ ∀ d ∈ [lonelyRow], jsStrictEqNum d.cluster 0 = false) ∧
    (clusterCountAt [lonelyRow] 0 = 0 ∧
     meanOfField [lonelyRow] 0 DynRow.price = 0 ∧
     meanOfField [lonelyRow] 0 DynRow.land_area = 0 ∧
     meanOfField [lonelyRow] 0 DynRow.building_area = 0 ∧
     meanOfField [lonelyRow] 0 DynRow.bedrooms = 0 ∧
     meanOfField [lonelyRow] 0 DynRow.bathrooms = 0) :=
  ⟨⟨by decide, by decide⟩,
    empty_group_aggregates_zero [lonelyRow] 0 (by decide) (by decide)⟩

/-- C6: the per-cluster count is the number of records whose cluster field
equals the id; a non-empty group's mean is the sum of the valid numeric
values divided by their number; the spec's fixture (cluster 1, prices 100,
200, 300) has mean price 200. -/
theorem cluster_mean_correct (data : List DynRow) (c : ℚ) :
    clusterCountAt data c = specClusterCount data c ∧
    (numericArr data c DynRow.price ≠ [] →
      meanOfField data c DynRow.price =
        (numericArr data c DynRow.price).sum /
          ((numericArr data c DynRow.price).length : ℚ)) ∧
    meanOfField fixtureRows 1 DynRow.price = 200 := by
  refine ⟨?_, fun hne => ?_, ?_⟩
  · unfold clusterCountAt specClusterCount
    congr 1
    apply List.filter_congr
    intro d _
    cases hd : d.cluster with
    | num q =>
        rcases eq_or_ne q c with rfl | hqc
        · simp [jsStrictEqNum]
        · simp [jsStrictEqNum, hqc]
    | nan => simp [jsStrictEqNum]
    | str s => simp [jsStrictEqNum]
  · have hlen : ¬((numericArr data c DynRow.price).length = 0) := by
      simpa [List.length_eq_zero] using hne
    simp only [meanOfField]
    rw [if_neg hlen, foldl_add_acc, zero_add]
  · have harr : numericArr fixtureRows 1 DynRow.price = [100, 200, 300] := by decide
    unfold meanOfField
    rw [harr]
    norm_num [List.foldl]

/-- C6 witness: count and mean formulas applied to the concrete fixture,
with the non-emptiness hypothesis discharged. -/
theorem cluster_mean_correct_witness :
    numericArr fixtureRows 1 DynRow.price ≠ [] ∧
    clusterCountAt fixtureRows 1 = specClusterCount fixtureRows 1 ∧
    meanOfField fixtureRows 1 DynRow.price =
      (numericArr fixtureRows 1 DynRow.price).sum /
        ((numericArr fixtureRows 1 DynRow.price).length : ℚ) :=
  ⟨by decide, (cluster_mean_correct fixtureRows 1).1,
    (cluster_mean_correct fixtureRows 1).2.1 (by decide)⟩

theorem clusterCountAt_cons (d : DynRow) (rest : List DynRow) (c : ℚ) :
    clusterCountAt (d :: rest) c =
      (if jsStrictEqNum d.cluster c then 1 else 0) + clusterCountAt rest c := by
  unfold clusterCountAt
  rw [List.filter_cons]
  by_cases h : jsStrictEqNum d.cluster c = true
  · simp [h, Nat.add_comm]
  · simp [h]

theorem sum_map_indicator (ids : List ℚ) (q : ℚ) (hnd : ids.Nodup) (hmem : q ∈ ids) :
    (ids.map (fun c => if q = c then (1 : ℕ) else 0)).sum = 1 := by
  induction ids with
  | nil => cases hmem
  | cons c cs ih =>
      rcases List.nodup_cons.mp hnd with ⟨hnotin, hnd'⟩
      by_cases hqc : q = c
      · subst hqc
        have hz : (cs.map (fun x => if q = x then (1 : ℕ) else 0)).sum = 0 := by
          apply List.sum_eq_zero
          intro y hy
          obtain ⟨x, hx, rfl⟩ := List.mem_map.mp hy
          have hne : ¬(q = x) := fun he => hnotin (he ▸ hx)
          simp [hne]
        simp [hz]
      · have hmem' : q ∈ cs := by
          rcases List.mem_cons.mp hmem with h | h
          · exact absurd h hqc
          · exact h
        simp [hqc, ih hnd' hmem']

/-- C7 (amended): for a duplicate-free cluster-id list containing every
cluster value that occurs (as a number) in the data, the per-cluster counts
sum to the number of records. -/
theorem aggregate_counts_nodup_total (ids : List ℚ) (data : List DynRow)
    (hnd : ids.Nodup)
    (hcov : ∀ d ∈ data, ∃ c ∈ ids, d.cluster = JSVal.num c) :
    sumCounts ids data = data.length := by
  induction data with
  | nil => simp [sumCounts, clusterCountAt]
  | cons d rest ih =>
      have hcov' : ∀ r ∈ rest, ∃ c ∈ ids, r.cluster = JSVal.num c :=
        fun r hr => hcov r (List.mem_cons_of_mem _ hr)
      obtain ⟨c₀, hmem₀, hcl₀⟩ := hcov d (List.mem_cons_self _ _)
      unfold sumCounts at ih ⊢
      have hfun : (fun c => clusterCountAt (d :: rest) c) =
          (fun c => (if jsStrictEqNum d.cluster c then 1 else 0) + clusterCountAt rest c) :=
        funext fun c => clusterCountAt_cons d rest c
      rw [hfun, sum_map_add_nat, hcl₀]
      have hind : (fun c => if jsStrictEqNum (JSVal.num c₀) c then (1 : ℕ) else 0) =
          (fun c => if c₀ = c then (1 : ℕ) else 0) := by
        funext c
        simp [jsStrictEqNum]
      rw [hind, sum_map_indicator ids c₀ hnd hmem₀, ih hcov']
      simp [Nat.add_comm]

/-- C7 counterexample: a cluster-id list with a duplicate covers every
cluster value of a one-record list, yet the counts sum to 2, not 1 — the
claim needs the id list to be duplicate-free. -/
theorem aggregate_counts_duplicate_ids :
    (mkRow (JSVal.num 500) (JSVal.num 0)).cluster = JSVal.num 0 ∧
    (0 : ℚ) ∈ ([0, 0] : List ℚ) ∧
    sumCounts [0, 0] [mkRow (JSVal.num 500) (JSVal.num 0)] = 2 ∧
    ([mkRow (JSVal.num 500) (JSVal.num 0)] : List DynRow).length = 1 := by
  refine ⟨rfl, by decide, by decide, rfl⟩

/-- C7 witness: the amended theorem applied to the page's id list `[0,1,2]`
and a concrete record list covering clusters 0 and 1. -/
theorem aggregate_counts_nodup_total_witness :
    (clusters.Nodup ∧
      ∀ d ∈ [mkRow (JSVal.num 9) (JSVal.num 0), mkRow (JSVal.num 8) (JSVal.num 1)],
        ∃ c ∈ clusters, d.cluster = JSVal.num c) ∧
    sumCounts clusters [mkRow (JSVal.num 9) (JSVal.num 0), mkRow (JSVal.num 8) (JSVal.num 1)] =
      ([mkRow (JSVal.num 9) (JSVal.num 0), mkRow (JSVal.num 8) (JSVal.num 1)] : List DynRow).length :=
  ⟨⟨by decide, by decide⟩,
    aggregate_counts_nodup_total clusters
      [mkRow (JSVal.num 9) (JSVal.num 0), mkRow (JSVal.num 8) (JSVal.num 1)]
      (by decide) (by decide)⟩

/-!
## Claims about ingestion and the scatter series
-/

/-- A raw CSV row with a malformed latitude (`"oops"`) and a malformed
price (`"abc"`); the other numeric columns are well-formed. -/
def rawOops : RawRow :=
  ⟨"X", "u", "3", "2", "1", "100", "80", "107", "oops", "abc", "1"⟩

/-- A dynamic data list mixing a non-numeric and a numeric price in
cluster 0 (as Papa's `dynamicTyping` would deliver them). -/
def mixedRows : List DynRow :=
  [mkRow (JSVal.str "abc") (JSVal.num 0), mkRow (JSVal.num 100) (JSVal.num 0)]

/-- C8 counterexample: on the cluster-analysis ingestion path the value
`"abc"` in a numeric column stays the string `"abc"` (it is later excluded
from the mean rather than counted as 0), so the default-to-zero policy does
not hold on every ingestion path of the program. -/
theorem dynamic_typing_keeps_string :
    papaDynamicType "abc" = JSVal.str "abc" ∧
    JSVal.str "abc" ≠ JSVal.num 0 ∧
    meanOfField mixedRows 0 DynRow.price = 100 := by
  refine ⟨by decide, by decide, ?_⟩
  have harr : numericArr mixedRows 0 DynRow.price = [100] := by decide
  unfold meanOfField
  rw [harr]
  norm_num [List.foldl]

/-- C8 (amended): the map page's `parseCSV` transform coerces every numeric
column to a number, defaulting failed parses to 0 and keeping every row;
the cluster-analysis path instead leaves a non-numeric cell as its string
(to be excluded from aggregation), not defaulted to 0. -/
theorem ingestion_zero_policy_per_path (s : String) (raw : RawRow) (rows : List RawRow) :
    (jsParseFloat s = JSVal.nan → mapPageCoerce s = JSVal.num 0) ∧
    (∃ q, mapPageCoerce s = JSVal.num q) ∧
    (jsParseFloat raw.price = JSVal.nan → (parseCSVRow raw).price = 0) ∧
    (parseCSV rows).length = rows.length ∧
    (jsNumberOfString s = JSVal.nan → papaDynamicType s = JSVal.str s) := by
  refine ⟨fun h => mapPageCoerce_of_nan h, mapPageCoerce_eq_num s, fun h => ?_,
    by simp [parseCSV], fun h => ?_⟩
  · show (mapPageCoerce raw.price).toQ = 0
    rw [mapPageCoerce_of_nan h]
    rfl
  · unfold papaDynamicType
    by_cases he : s.data.isEmpty = true
    · rw [if_pos he]
    · rw [if_neg he, h]

/-- C8 witness: both paths evaluated at the malformed cell `"abc"`. -/
theorem ingestion_zero_policy_per_path_witness :
    (jsParseFloat "abc" = JSVal.nan ∧ jsNumberOfString "abc" = JSVal.nan) ∧
    mapPageCoerce "abc" = JSVal.num 0 ∧
    papaDynamicType "abc" = JSVal.str "abc" :=
  ⟨⟨by decide, by decide⟩,
    (ingestion_zero_policy_per_path "abc" rawOops []).1 (by decide),
    (ingestion_zero_policy_per_path "abc" rawOops []).2.2.2.2 (by decide)⟩

/-- C9: every record the map page's CSV transform produces carries a plain
(non-NaN) number in every numeric field; a row whose latitude or longitude
fails to parse gets coordinate 0 there, and it still produces a map marker
(the marker list has one entry per ingested row, nothing excluded). -/
theorem map_page_records_numeric (s : String) (raw : RawRow) (rows : List RawRow) :
    (∃ q, mapPageCoerce s = JSVal.num q) ∧
    (jsParseFloat raw.latitude = JSVal.nan → (parseCSVRow raw).latitude = 0) ∧
    (jsParseFloat raw.longitude = JSVal.nan → (parseCSVRow raw).longitude = 0) ∧
    mapMarkers (parseCSV rows) = (parseCSV rows).map (fun p => (p.latitude, p.longitude)) ∧
    (mapMarkers (parseCSV rows)).length = rows.length := by
  refine ⟨mapPageCoerce_eq_num s, fun h => ?_, fun h => ?_, rfl, by simp [mapMarkers, parseCSV]⟩
  · show (mapPageCoerce raw.latitude).toQ = 0
    rw [mapPageCoerce_of_nan h]
    rfl
  · show (mapPageCoerce raw.longitude).toQ = 0
    rw [mapPageCoerce_of_nan h]
    rfl

/-- C9 witness: the row with latitude `"oops"` is ingested with latitude 0
and is plotted at `(0, 107)` rather than excluded from the map. -/
theorem map_page_records_numeric_witness :
    jsParseFloat rawOops.latitude = JSVal.nan ∧
    (parseCSVRow rawOops).latitude = 0 ∧
    mapMarkers (parseCSV [rawOops]) = [((0 : ℚ), (107 : ℚ))] :=
  ⟨by decide,
    (map_page_records_numeric "x" rawOops [rawOops]).2.1 (by decide),
    by decide⟩

/-- Two dynamic rows whose first record is dropped from the scatter (price
`"x"` is not numeric) while the second survives: the surviving point has
cluster 2 but inherits the colour of the first record (cluster 1). -/
def misalignRows : List DynRow :=
  [mkRow (JSVal.str "x") (JSVal.num 1), mkRow (JSVal.num 200) (JSVal.num 2)]

/-- Two dynamic rows whose dropped record comes last: the surviving point
(cluster 0) still gets its own colour, so dropping a record does not always
misalign the colours. -/
def alignRows : List DynRow :=
  [mkRow (JSVal.num 100) (JSVal.num 0), mkRow (JSVal.str "x") (JSVal.num 1)]

/-- C10 counterexample: a record is dropped from the scatter points, yet
the colour at every surviving index still corresponds to that point's
cluster — the claimed "whenever a record is dropped the colours misalign"
is false. -/
theorem scatter_alignment_survives_drop :
    (scatterPoints alignRows).length < alignRows.length ∧
    colorsAligned alignRows = true := by
  constructor <;> decide

/-- C10 (amended): the colour array is built from the full input (one entry
per record) while the point list keeps only the records with numeric
`land_area` and `price`; when nothing is dropped the two arrays agree
index-by-index, and when a record is dropped the colour at an index can
belong to a different record than the point at that index (concrete
misalignment exhibited). -/
theorem scatter_colors_full_input (data : List DynRow) :
    (scatterColors data).length = data.length ∧
    (scatterPoints data).length ≤ data.length ∧
    ((∀ d ∈ data, jsIsNaN (jsNumber d.land_area) = false ∧ jsIsNaN (jsNumber d.price) = false) →
      colorsAligned data = true) ∧
    (colorsAligned misalignRows = false ∧
      (scatterPoints misalignRows).length < misalignRows.length) := by
  refine ⟨by simp [scatterColors], ?_, fun hval => ?_, by decide, by decide⟩
  · unfold scatterPoints
    calc (((data.map (fun d => ScatterPoint.mk (jsNumber d.land_area) (jsNumber d.price) d.cluster))).filter
          (fun d => !(jsIsNaN d.x) && !(jsIsNaN d.y))).length
        ≤ (data.map (fun d => ScatterPoint.mk (jsNumber d.land_area) (jsNumber d.price) d.cluster)).length :=
          List.length_filter_le _ _
      _ = data.length := List.length_map _ _
  · have hpts : scatterPoints data =
        data.map (fun d => ScatterPoint.mk (jsNumber d.land_area) (jsNumber d.price) d.cluster) := by
      unfold scatterPoints
      apply List.filter_eq_self.mpr
      intro a ha
      obtain ⟨d, hd, rfl⟩ := List.mem_map.mp ha
      obtain ⟨h1, h2⟩ := hval d hd
      simp [h1, h2]
    unfold colorsAligned scatterColors
    rw [hpts, List.zip_map']
    rw [List.all_eq_true]
    intro x hx
    obtain ⟨d, hd, rfl⟩ := List.mem_map.mp hx
    simp

/-- C10 witness: the no-drop alignment applied to the all-valid fixture. -/
theorem scatter_colors_full_input_witness :
    (∀ d ∈ fixtureRows, jsIsNaN (jsNumber d.land_area) = false ∧ jsIsNaN (jsNumber d.price) = false) ∧
    colorsAligned fixtureRows = true :=
  ⟨by decide, (scatter_colors_full_input fixtureRows).2.2.1 (by decide)⟩
